import Mathlib

/-!
Verification development for the telemetry ingestion engine of the
`iot_dashboard` repository (Flask + background serial/mock reader).

The Python sources are shallowly embedded:
* strings are `List Char` (`Str`), Python floats are modelled as exact
  rationals `ℚ`, Python `int()` truncation is `pythonInt`;
* the per-line telemetry parser, the serial line-buffer slicing, the
  scheduler/fallback tick of `DataReader.run_reader`, the configuration
  update handler and the history deques are embedded as executable
  functions;
* the barometric-altitude float computation (a real-valued power) is kept
  abstract as a function parameter `altFn : ℚ → ℚ → ℚ` standing for
  `DataReader.calculate_altitude_from_pressure`; every claim below only
  needs that the code calls it on the right arguments and stores its
  result.
-/

/-- Python strings, embedded as lists of characters. -/
abbrev Str := List Char

/-- Characters treated as whitespace by Python's `str.strip` and `\s`. -/
def pySpace (c : Char) : Bool :=
  c = ' ' || c = '\t' || c = '\n' || c = '\r' || c = '\x0b' || c = '\x0c'

/-- Python `str.strip()`: drop whitespace from both ends. -/
def pyStrip (s : Str) : Str :=
  ((s.dropWhile pySpace).reverse.dropWhile pySpace).reverse

/-- Python `str.split('\n')`. -/
def splitLines : Str → List Str
  | [] => [[]]
  | c :: cs =>
    if c = '\n' then [] :: splitLines cs
    else
      match splitLines cs with
      | [] => [[c]]
      | l :: ls => (c :: l) :: ls

/-- Python `'\n'.join(lines)`. -/
def joinLines : List Str → Str
  | [] => []
  | [l] => l
  | l :: ls => l ++ '\n' :: joinLines ls

/-- Python `needle in hay` substring test. -/
def containsSub (needle : Str) : Str → Bool
  | [] => needle.isEmpty
  | c :: t => needle.isPrefixOf (c :: t) || containsSub needle t

/-- Python `str.upper()` on one ASCII character. -/
def pyUpperChar (c : Char) : Char :=
  if 'a' ≤ c ∧ c ≤ 'z' then Char.ofNat (c.toNat - 32) else c

/-- Python `str.upper()`. -/
def pyUpper (s : Str) : Str := s.map pyUpperChar

/-- Numeric value of a digit string (used by Python `int`/`float`). -/
def natVal (s : Str) : ℕ := s.foldl (fun n c => 10 * n + (c.toNat - 48)) 0

/-- Python `float(s)` on a token drawn from the characters `[0-9.-]`:
`some` of the exact rational value when the token is a valid float
literal, `none` when `float()` would raise `ValueError`. -/
def pyFloat (s : Str) : Option ℚ :=
  match s with
  | '-' :: t => (pyFloatCore t).map (fun x => -x)
  | t => pyFloatCore t
where
  /-- unsigned part of `pyFloat` -/
  pyFloatCore (t : Str) : Option ℚ :=
    if t ≠ [] ∧ t.all (fun c => c.isDigit || c = '.') = true ∧
        t.count '.' ≤ 1 ∧ t.any (fun c => c.isDigit) = true then
      let ip := t.takeWhile (fun c => c.isDigit)
      match t.drop ip.length with
      | [] => some ((natVal ip : ℚ))
      | _ :: fp => some ((natVal ip : ℚ) + (natVal fp : ℚ) / (10 : ℚ) ^ fp.length)
    else none

/-- Python `int()` on a rational (truncation toward zero), as used by
`convert_gps_to_decimal` (`degrees = int(coord / 100)`). -/
def pythonInt (q : ℚ) : ℤ :=
  if 0 ≤ q.num then ((q.num.toNat / q.den : ℕ) : ℤ)
  else -(((-q.num).toNat / q.den : ℕ) : ℤ)

/-- `convert_gps_to_decimal` from `app/data_store.py` (identical copy in
`DataReader.convert_gps_to_decimal`): DDMM.MMMMM → decimal degrees. -/
def convert_gps_to_decimal (coord : ℚ) : ℚ :=
  if coord = 0 then 0
  else
    let degrees : ℤ := pythonInt (coord / 100)
    (degrees : ℚ) + (coord - (degrees : ℚ) * 100) / 60

/-- Modelled from the spec's words, for refinement comparison with
`convert_gps_to_decimal`: `degrees = floor(coord/100)`,
`minutes = coord - degrees*100`, result `degrees + minutes/60`. -/
def gps_to_decimal_spec (coord : ℚ) : ℚ :=
  if coord = 0 then 0
  else (⌊coord / 100⌋ : ℚ) + (coord - (⌊coord / 100⌋ : ℚ) * 100) / 60

/-- The longitude shown by the query API (`get_decimal_coordinates` in
`app/data_store.py`): negated exactly when the raw value exceeds 10000. -/
def api_lon_decimal (lon : ℚ) : ℚ :=
  let d := convert_gps_to_decimal lon
  if 10000 < lon then -d else d

/-- The longitude broadcast by `DataReader.emit_data`: negated
unconditionally (`lon_decimal = -self.convert_gps_to_decimal(...)`). -/
def emit_lon_decimal (lon : ℚ) : ℚ := -(convert_gps_to_decimal lon)

/-- The longitude persisted by `DataReader.log_data_to_csv`: negated
unconditionally. -/
def csv_lon_decimal (lon : ℚ) : ℚ := -(convert_gps_to_decimal lon)

/-- One `append` on a Python `deque(maxlen=cap)`: evicts the oldest
element once the deque is at capacity. -/
def dequePush {α : Type} (cap : ℕ) (l : List α) (x : α) : List α :=
  if l.length < cap then l ++ [x] else l.tail ++ [x]

/-- Repeated insertion into one per-field history deque of
`app/data_store.py` (`history = defaultdict(lambda: deque(maxlen=100))`),
starting from the empty buffer. -/
def historyInsertAll {α : Type} (xs : List α) : List α :=
  xs.foldl (dequePush 100) []

theorem pythonInt_eq_floor (q : ℚ) (h : 0 ≤ q) : pythonInt q = ⌊q⌋ := by
  have hnum : 0 ≤ q.num := Rat.num_nonneg.mpr h
  have hden : 0 < q.den := q.den_pos
  unfold pythonInt
  rw [if_pos hnum]
  set a : ℕ := q.num.toNat with ha
  set d : ℕ := q.den with hd
  have hq : ((a : ℚ)) / (d : ℚ) = q := by
    rw [ha, hd]
    have hcast : ((q.num.toNat : ℕ) : ℚ) = ((q.num : ℤ) : ℚ) := by
      exact_mod_cast congrArg (fun z : ℤ => (z : ℚ)) (Int.toNat_of_nonneg hnum)
    rw [hcast, Rat.num_div_den]
  have h1 : (a / d) * d ≤ a := Nat.div_mul_le_self a d
  have h2 : a < (a / d + 1) * d := by
    have h3 : d * (a / d) + a % d = a := Nat.div_add_mod a d
    have h4 : a % d < d := Nat.mod_lt a hden
    calc a = d * (a / d) + a % d := h3.symm
      _ < d * (a / d) + d := by omega
      _ = (a / d + 1) * d := by ring
  have hdq : (0 : ℚ) < (d : ℚ) := by exact_mod_cast hden
  symm
  rw [Int.floor_eq_iff]
  constructor
  · rw [← hq]
    rw [le_div_iff₀ hdq]
    push_cast
    exact_mod_cast h1
  · rw [← hq]
    rw [div_lt_iff₀ hdq]
    push_cast
    exact_mod_cast h2

/-- C4 (counterexample): the claim quantifies over every coordinate value,
but Python `int()` truncates toward zero while the claim's formula uses
`floor`; at `coord = -150` the code yields `-11/6` and the claim's formula
`-7/6`. -/
theorem convert_gps_neg_coord_differs :
    convert_gps_to_decimal (-150) ≠ gps_to_decimal_spec (-150) := by
  have h1 : convert_gps_to_decimal (-150) = -11/6 := by
    unfold convert_gps_to_decimal pythonInt
    norm_num
  have h2 : gps_to_decimal_spec (-150) = -7/6 := by
    unfold gps_to_decimal_spec
    have hf : ⌊(-150 : ℚ) / 100⌋ = -2 := by
      rw [Int.floor_eq_iff]
      constructor <;> norm_num
    rw [if_neg (by norm_num), hf]
    norm_num
  rw [h1, h2]
  norm_num

/-- C4 (amended): restricted to nonnegative coordinates (where Python's
truncating `int()` agrees with `floor`), GPS-to-decimal conversion returns
0 at 0 and otherwise `degrees + minutes/60` with `degrees = floor(coord/100)`
and `minutes = coord - degrees*100`. -/
theorem convert_gps_matches_spec_nonneg (coord : ℚ) (h : 0 ≤ coord) :
    convert_gps_to_decimal coord = gps_to_decimal_spec coord := by
  unfold convert_gps_to_decimal gps_to_decimal_spec
  by_cases hc : coord = 0
  · simp [hc]
  · rw [if_neg hc, if_neg hc]
    rw [pythonInt_eq_floor (coord / 100) (by positivity)]

/-- C4 witness: the amended theorem applied at `coord = 150`. -/
theorem convert_gps_matches_spec_nonneg_at_150 :
    convert_gps_to_decimal 150 = gps_to_decimal_spec 150 :=
  convert_gps_matches_spec_nonneg 150 (by norm_num)

/-- C10 (counterexample): at raw longitude 500 (magnitude well below
10000) the broadcast path negates the decimal longitude while the query
API does not, so the single negation rule does not hold on every output
path. -/
theorem lon_paths_disagree_at_500 :
    emit_lon_decimal 500 ≠ api_lon_decimal 500 ∧ ¬ (10000 < (500 : ℚ)) := by
  constructor
  · unfold emit_lon_decimal api_lon_decimal convert_gps_to_decimal pythonInt
    norm_num
  · norm_num

/-- C10 (amended): the negate-iff-raw-exceeds-10000 rule holds on the
query-API path only; the broadcast and CSV paths negate unconditionally,
so they agree with the query API exactly when the raw longitude exceeds
10000 or the decimal value is 0. -/
theorem lon_negation_rule_per_path (lon : ℚ) :
    api_lon_decimal lon =
      (if 10000 < lon then -(convert_gps_to_decimal lon) else convert_gps_to_decimal lon) ∧
    (emit_lon_decimal lon = api_lon_decimal lon ↔
      (10000 < lon ∨ convert_gps_to_decimal lon = 0)) ∧
    emit_lon_decimal lon = csv_lon_decimal lon := by
  refine ⟨rfl, ?_, rfl⟩
  unfold emit_lon_decimal api_lon_decimal
  by_cases h : 10000 < lon
  · simp [h]
  · simp only [if_neg h]
    rw [CharZero.neg_eq_self_iff]
    constructor
    · intro hz
      exact Or.inr hz
    · intro hz
      rcases hz with hz | hz
      · exact absurd hz h
      · exact hz

theorem dequePush_foldl_drop {α : Type} (cap : ℕ) (hc : 0 < cap) :
    ∀ (xs s : List α), s.length ≤ cap →
      xs.foldl (dequePush cap) s = (s ++ xs).drop ((s ++ xs).length - cap) := by
  intro xs
  induction xs with
  | nil =>
    intro s hs
    simp [Nat.sub_eq_zero_of_le hs]
  | cons x xs ih =>
    intro s hs
    rw [List.foldl_cons]
    by_cases h : s.length < cap
    · have hpush : dequePush cap s x = s ++ [x] := by simp [dequePush, h]
      have hlen : (dequePush cap s x).length ≤ cap := by
        rw [hpush]; simp; omega
      rw [ih _ hlen, hpush]
      simp [List.append_assoc]
    · have heq : s.length = cap := le_antisymm hs (le_of_not_lt h)
      obtain ⟨a, t, rfl⟩ : ∃ a t, s = a :: t := by
        cases s with
        | nil => simp at heq; omega
        | cons a t => exact ⟨a, t, rfl⟩
      have htlen : t.length + 1 = cap := by simpa using heq
      have hpush : dequePush cap (a :: t) x = t ++ [x] := by
        unfold dequePush
        rw [if_neg h]
        rfl
      have hlen2 : (dequePush cap (a :: t) x).length ≤ cap := by
        rw [hpush]
        simp only [List.length_append, List.length_cons, List.length_nil]
        omega
      rw [ih _ hlen2, hpush]
      have h1 : ((t ++ [x]) ++ xs).length - cap = xs.length := by
        simp; omega
      have h2 : ((a :: t) ++ x :: xs).length - cap = xs.length + 1 := by
        simp; omega
      rw [h1, h2]
      show _ = List.drop (xs.length + 1) (a :: (t ++ x :: xs))
      rw [List.drop_succ_cons]
      simp [List.append_assoc]

/-- C3: a history deque never exceeds its capacity 100, and after `100 + k`
insertions it holds exactly the last 100 inserted values in insertion
order (oldest evicted first). -/
theorem history_buffer_bounded_last_100 :
    (∀ (α : Type) (xs : List α), (historyInsertAll xs).length ≤ 100) ∧
    (∀ (α : Type) (k : ℕ) (xs : List α), xs.length = 100 + k →
      historyInsertAll xs = xs.drop k) := by
  constructor
  · intro α xs
    unfold historyInsertAll
    rw [dequePush_foldl_drop 100 (by norm_num) xs [] (by simp)]
    simp only [List.nil_append, List.length_drop]
    omega
  · intro α k xs hlen
    unfold historyInsertAll
    rw [dequePush_foldl_drop 100 (by norm_num) xs [] (by simp)]
    simp only [List.nil_append]
    rw [hlen]
    congr 1
    omega

/-- C3 witness: 101 insertions leave exactly the last 100 values. -/
theorem history_buffer_bounded_last_100_at_101 :
    (List.range 101).length = 100 + 1 ∧
    historyInsertAll (List.range 101) = (List.range 101).drop 1 :=
  ⟨by simp, history_buffer_bounded_last_100.2 ℕ 1 (List.range 101) (by simp)⟩

/-- Key literal of the `GPS:` line handler in `parse_telemetry_block`. -/
def gpsKey : Str := ("GPS:").toList

/-- The `No Fix` marker searched for inside a GPS line. -/
def noFixMark : Str := ("No Fix").toList

/-- Key literal of the satellite-count line. -/
def satsKey : Str := ("Sats:").toList

/-- Key literal of the UTC time line. -/
def utcKey : Str := ("UTC Time:").toList

/-- Key literal of the RTC date line. -/
def rtcDateKey : Str := ("RTC Date:").toList

/-- Key literal of the RTC time line. -/
def rtcTimeKey : Str := ("RTC Time:").toList

/-- Key literal of the MS5611 (primary) temperature line. -/
def ms5611Key : Str := ("MS5611 Temp:").toList

/-- Key literal of the pressure line. -/
def pressureKey : Str := ("Pressure:").toList

/-- Key literal of the DS18B20 temperature line. -/
def ds18b20Key : Str := ("DS18B20 Temp:").toList

/-- Key literal of the SCD30 temperature line. -/
def scd30Key : Str := ("SCD30 Temp:").toList

/-- Key literal of the humidity line. -/
def humidityKey : Str := ("Humidity:").toList

/-- Key literal of the CO2 line. -/
def co2Key : Str := ("CO2:").toList

/-- Key literal of the thermal temperature line. -/
def thermalKey : Str := ("Thermal Temp:").toList

/-- Key literal of the heating status line. -/
def heatingKey : Str := ("Heating Status:").toList

/-- Key literal of the target range line. -/
def targetKey : Str := ("Target Range:").toList

/-- Character class `[\d.-]` of the permissive numeric capture groups. -/
def numChar (c : Char) : Bool := c.isDigit || c = '.' || c = '-'

/-- Character class `[\d.]` of the GPS coordinate capture groups. -/
def gpsNumChar (c : Char) : Bool := c.isDigit || c = '.'

/-- Character class `[\d:]` of the time capture groups. -/
def timeChar (c : Char) : Bool := c.isDigit || c = ':'

/-- Character class `[\d/]` of the RTC date capture group. -/
def dateChar (c : Char) : Bool := c.isDigit || c = '/'

/-- Character class `\w` of the heating status capture group. -/
def wordChar (c : Char) : Bool := c.isAlphanum || c = '_'

/-- `re.search(key + r'\s*(cls+)', s)`: at each start position, match the
literal key, greedily skip whitespace, then capture a maximal nonempty run
of `cls` characters; on failure advance one position (the character
classes are disjoint from whitespace, so greedy matching is exact). -/
def extractTok (key : Str) (cls : Char → Bool) : Str → Option Str
  | [] => none
  | c :: t =>
    if key.isPrefixOf (c :: t) then
      let rest := ((c :: t).drop key.length).dropWhile pySpace
      let tok := rest.takeWhile cls
      if tok = [] then extractTok key cls t else some tok
    else extractTok key cls t

/-- `re.search(key + r'\s*([\d.-]+ - [\d.-]+)', s)` for the target-range
line: two numeric runs joined by a literal `" - "`. -/
def extractRange (key : Str) : Str → Option Str
  | [] => none
  | c :: t =>
    if key.isPrefixOf (c :: t) then
      let rest := ((c :: t).drop key.length).dropWhile pySpace
      let a := rest.takeWhile numChar
      let r1 := rest.drop a.length
      if a ≠ [] ∧ (" - ").toList.isPrefixOf r1 = true then
        let b := (r1.drop 3).takeWhile numChar
        if b ≠ [] then some (a ++ (" - ").toList ++ b) else extractRange key t
      else extractRange key t
    else extractRange key t

/-- `re.search(r'GPS:\s*([\d.]+),\s*([\d.]+)\s*\(Alt:\s*([\d.]+)\s*m\)', s)`:
the three captured coordinate/altitude tokens of a GPS fix line. -/
def gpsMatch : Str → Option (Str × Str × Str)
  | [] => none
  | c :: t =>
    (if gpsKey.isPrefixOf (c :: t) then
      let r0 := ((c :: t).drop gpsKey.length).dropWhile pySpace
      let t1 := r0.takeWhile gpsNumChar
      let r1 := r0.drop t1.length
      if t1 ≠ [] ∧ (",").toList.isPrefixOf r1 = true then
        let r2 := (r1.drop 1).dropWhile pySpace
        let t2 := r2.takeWhile gpsNumChar
        let r3 := (r2.drop t2.length).dropWhile pySpace
        if t2 ≠ [] ∧ ("(Alt:").toList.isPrefixOf r3 = true then
          let r4 := (r3.drop 5).dropWhile pySpace
          let t3 := r4.takeWhile gpsNumChar
          let r5 := (r4.drop t3.length).dropWhile pySpace
          if t3 ≠ [] ∧ ("m)").toList.isPrefixOf r5 = true then
            some (t1, t2, t3)
          else none
        else none
      else none
    else none).orElse (fun _ => gpsMatch t)

/-- The `latest_data` record of `app/data_store.py`; `alt_calculated`
models the optional key read via `.get("alt_calculated", False)`. -/
structure Telemetry where
  lat : ℚ
  lon : ℚ
  alt : ℚ
  satellites : ℕ
  utc_time : Str
  rtc_date : Str
  rtc_time : Str
  ms5611_temp : ℚ
  pressure : ℚ
  ds18b20_temp : ℚ
  scd30_temp : ℚ
  rh : ℚ
  co2 : ℚ
  thermal_temp : ℚ
  heating_status : Str
  target_range : Str
  alt_calculated : Bool
deriving DecidableEq

/-- Initial `latest_data` contents from `app/data_store.py`. -/
def initTelemetry : Telemetry where
  lat := 3325271972/1000000
  lon := 11155243164/1000000
  alt := 378
  satellites := 9
  utc_time := ("22:42:36").toList
  rtc_date := ("8/2/2025").toList
  rtc_time := ("15:42:35").toList
  ms5611_temp := 2595/100
  pressure := 97081/100
  ds18b20_temp := 2562/100
  scd30_temp := 2691/100
  rh := 3973/100
  co2 := 7329/10
  thermal_temp := 2604/100
  heating_status := ("ON").toList
  target_range := ("29.4 - 29.6").toList
  alt_calculated := false

/-- One iteration of the line loop of `DataReader.parse_telemetry_block`,
on the already-stripped line. `Except.error st` models a `ValueError`
escaping from `float()` to the function-level `except` handler (the
mutations already applied to `latest_data` persist in `st`);
`Except.ok (st, u)` returns the new state and whether this line set
`data_updated`. -/
def handleCore (altFn : ℚ → ℚ → ℚ) (st : Telemetry) (line : Str) :
    Except Telemetry (Telemetry × Bool) :=
  if line = [] then .ok (st, false)
  else if gpsKey.isPrefixOf line then
    if containsSub noFixMark line then
      .ok ({ st with lat := 0, lon := 0, alt := 0, satellites := 0 }, true)
    else
      match gpsMatch line with
      | some (g1, g2, g3) =>
        match pyFloat g1 with
        | none => .error st
        | some v1 =>
          match pyFloat g2 with
          | none => .error { st with lat := v1 }
          | some v2 =>
            match pyFloat g3 with
            | none => .error { st with lat := v1, lon := v2 }
            | some v3 =>
              .ok ({ st with lat := v1, lon := v2, alt := v3, alt_calculated := false }, true)
      | none => .ok (st, false)
  else if satsKey.isPrefixOf line then
    match extractTok satsKey Char.isDigit line with
    | some tok => .ok ({ st with satellites := natVal tok }, true)
    | none => .ok (st, false)
  else if utcKey.isPrefixOf line then
    match extractTok utcKey timeChar line with
    | some tok => .ok ({ st with utc_time := tok }, true)
    | none => .ok (st, false)
  else if rtcDateKey.isPrefixOf line then
    match extractTok rtcDateKey dateChar line with
    | some tok => .ok ({ st with rtc_date := tok }, true)
    | none => .ok (st, false)
  else if rtcTimeKey.isPrefixOf line then
    match extractTok rtcTimeKey timeChar line with
    | some tok => .ok ({ st with rtc_time := tok }, true)
    | none => .ok (st, false)
  else if ms5611Key.isPrefixOf line then
    match extractTok ms5611Key numChar line with
    | some tok =>
      match pyFloat tok with
      | some v => .ok ({ st with ms5611_temp := v }, true)
      | none => .error st
    | none => .ok (st, false)
  else if pressureKey.isPrefixOf line then
    match extractTok pressureKey numChar line with
    | some tok =>
      match pyFloat tok with
      | some v => .ok ({ st with pressure := v }, true)
      | none => .error st
    | none => .ok (st, false)
  else if ds18b20Key.isPrefixOf line then
    match extractTok ds18b20Key numChar line with
    | some tok =>
      match pyFloat tok with
      | some v => .ok ({ st with ds18b20_temp := v }, true)
      | none => .error st
    | none => .ok (st, false)
  else if scd30Key.isPrefixOf line then
    match extractTok scd30Key numChar line with
    | some tok =>
      match pyFloat tok with
      | some v => .ok ({ st with scd30_temp := v }, true)
      | none => .error st
    | none => .ok (st, false)
  else if humidityKey.isPrefixOf line then
    match extractTok humidityKey numChar line with
    | some tok =>
      match pyFloat tok with
      | some v => .ok ({ st with rh := v }, true)
      | none => .error st
    | none => .ok (st, false)
  else if co2Key.isPrefixOf line then
    match extractTok co2Key numChar line with
    | some tok =>
      match pyFloat tok with
      | some v => .ok ({ st with co2 := v }, true)
      | none => .error st
    | none => .ok (st, false)
  else if thermalKey.isPrefixOf line then
    match extractTok thermalKey numChar line with
    | some tok =>
      match pyFloat tok with
      | some v => .ok ({ st with thermal_temp := v }, true)
      | none => .error st
    | none => .ok (st, false)
  else if heatingKey.isPrefixOf line then
    match extractTok heatingKey wordChar line with
    | some tok => .ok ({ st with heating_status := tok }, true)
    | none => .ok (st, false)
  else if targetKey.isPrefixOf line then
    match extractRange targetKey line with
    | some tok => .ok ({ st with target_range := tok }, true)
    | none => .ok (st, false)
  else .ok (st, false)

/-- One line of `parse_telemetry_block`: strip, then dispatch. -/
def handleLine (altFn : ℚ → ℚ → ℚ) (st : Telemetry) (raw : Str) :
    Except Telemetry (Telemetry × Bool) :=
  handleCore altFn st (pyStrip raw)

/-- The line loop of `parse_telemetry_block`, accumulating `data_updated`;
an escaped `ValueError` aborts the remaining lines. -/
def parseLines (altFn : ℚ → ℚ → ℚ) :
    Telemetry → Bool → List Str → Except Telemetry (Telemetry × Bool)
  | st, b, [] => .ok (st, b)
  | st, b, l :: ls =>
    match handleLine altFn st l with
    | .ok (st2, u) => parseLines altFn st2 (b || u) ls
    | .error st2 => .error st2

/-- `DataReader.parse_telemetry_block`: split the stripped block into
lines, run the line loop, then (when anything was updated and the GPS
latitude or altitude is 0) recompute the altitude from the latest pressure
and MS5611 temperature via `altFn` and set `alt_calculated`. An escaped
`ValueError` reaches the `except` handler: the mutated state is kept and
the call reports `False`. -/
def parse_telemetry_block (altFn : ℚ → ℚ → ℚ) (st : Telemetry) (block : Str) :
    Telemetry × Bool :=
  match parseLines altFn st false (splitLines (pyStrip block)) with
  | .error st1 => (st1, false)
  | .ok (st1, upd) =>
    if upd = true ∧ (st1.lat = 0 ∨ st1.alt = 0) then
      ({ st1 with alt := altFn st1.pressure st1.ms5611_temp, alt_calculated := true }, upd)
    else (st1, upd)

/-- A telemetry block holding a GPS `No Fix` line, a pressure line and a
primary (MS5611) temperature line. -/
def noFixBlock : Str := ("GPS: No Fix\nPressure: 970.81\nMS5611 Temp: 25.95").toList

/-- C5: parsing a block with a GPS `No Fix` line plus pressure and MS5611
temperature lines zeroes lat/lon/satellites, marks the altitude as
calculated, and stores the barometric formula's output (`altFn`, standing
for `calculate_altitude_from_pressure`) applied to exactly that pressure
(970.81) and temperature (25.95); the call reports an update. -/
theorem parse_no_fix_pressure_temp (altFn : ℚ → ℚ → ℚ) (s : Telemetry) :
    (parse_telemetry_block altFn s noFixBlock).2 = true ∧
    (parse_telemetry_block altFn s noFixBlock).1.lat = 0 ∧
    (parse_telemetry_block altFn s noFixBlock).1.lon = 0 ∧
    (parse_telemetry_block altFn s noFixBlock).1.satellites = 0 ∧
    (parse_telemetry_block altFn s noFixBlock).1.alt_calculated = true ∧
    (parse_telemetry_block altFn s noFixBlock).1.pressure = 97081/100 ∧
    (parse_telemetry_block altFn s noFixBlock).1.ms5611_temp = 2595/100 ∧
    (parse_telemetry_block altFn s noFixBlock).1.alt
      = altFn ((parse_telemetry_block altFn s noFixBlock).1.pressure)
          ((parse_telemetry_block altFn s noFixBlock).1.ms5611_temp) := by
  refine ⟨rfl, rfl, rfl, rfl, rfl, ?_, ?_, rfl⟩
  · rw [show (parse_telemetry_block altFn s noFixBlock).1.pressure
        = ((970 : ℕ) : ℚ) + ((81 : ℕ) : ℚ) / (10 : ℚ) ^ (2 : ℕ) from rfl]
    push_cast
    norm_num
  · rw [show (parse_telemetry_block altFn s noFixBlock).1.ms5611_temp
        = ((25 : ℕ) : ℚ) + ((95 : ℕ) : ℚ) / (10 : ℚ) ^ (2 : ℕ) from rfl]
    push_cast
    norm_num

/-- A block whose middle line (`CO2: ...`) matches the CO2 key and the
permissive `[\d.-]+` capture, but whose captured token `...` makes Python's
`float()` raise `ValueError`. -/
def abortBlock : Str := ("Humidity: 45.5\nCO2: ...\nPressure: 500").toList

/-- C6 (counterexample): a single malformed value line does abort the rest
of the block. In `abortBlock` the humidity field is updated (to 45.5), but
the `ValueError` escaping `float('...')` reaches the function-level
`except` handler: the pressure line after it is never decoded (the stored
pressure keeps its prior value, not 500) and the call reports `False`
although a field changed. -/
theorem malformed_value_aborts_block :
    (parse_telemetry_block (fun _ _ => 0) initTelemetry abortBlock).2 = false ∧
    (parse_telemetry_block (fun _ _ => 0) initTelemetry abortBlock).1.rh = 91/2 ∧
    (parse_telemetry_block (fun _ _ => 0) initTelemetry abortBlock).1.pressure
      = initTelemetry.pressure := by
  refine ⟨rfl, ?_, rfl⟩
  rw [show (parse_telemetry_block (fun _ _ => 0) initTelemetry abortBlock).1.rh
      = ((45 : ℕ) : ℚ) + ((5 : ℕ) : ℚ) / (10 : ℚ) ^ (1 : ℕ) from rfl]
  push_cast
  norm_num

/-- A stripped line matches none of the fourteen key handlers of
`parse_telemetry_block`. -/
def noKeyMatches (l : Str) : Prop :=
  gpsKey.isPrefixOf l = false ∧ satsKey.isPrefixOf l = false ∧
  utcKey.isPrefixOf l = false ∧ rtcDateKey.isPrefixOf l = false ∧
  rtcTimeKey.isPrefixOf l = false ∧ ms5611Key.isPrefixOf l = false ∧
  pressureKey.isPrefixOf l = false ∧ ds18b20Key.isPrefixOf l = false ∧
  scd30Key.isPrefixOf l = false ∧ humidityKey.isPrefixOf l = false ∧
  co2Key.isPrefixOf l = false ∧ thermalKey.isPrefixOf l = false ∧
  heatingKey.isPrefixOf l = false ∧ targetKey.isPrefixOf l = false

/-- The stripped line reaches a key handler but its value fails that
handler's extraction pattern (the `re.search` finds no capture), so the
`if match:` guard skips the line. The GPS disjunct additionally requires
the line not to be a `No Fix` line (which is handled, not skipped). -/
def extractionFails (l : Str) : Prop :=
  (gpsKey.isPrefixOf l = true ∧ containsSub noFixMark l = false ∧ gpsMatch l = none) ∨
  (satsKey.isPrefixOf l = true ∧ extractTok satsKey Char.isDigit l = none) ∨
  (utcKey.isPrefixOf l = true ∧ extractTok utcKey timeChar l = none) ∨
  (rtcDateKey.isPrefixOf l = true ∧ extractTok rtcDateKey dateChar l = none) ∨
  (rtcTimeKey.isPrefixOf l = true ∧ extractTok rtcTimeKey timeChar l = none) ∨
  (ms5611Key.isPrefixOf l = true ∧ extractTok ms5611Key numChar l = none) ∨
  (pressureKey.isPrefixOf l = true ∧ extractTok pressureKey numChar l = none) ∨
  (ds18b20Key.isPrefixOf l = true ∧ extractTok ds18b20Key numChar l = none) ∨
  (scd30Key.isPrefixOf l = true ∧ extractTok scd30Key numChar l = none) ∨
  (humidityKey.isPrefixOf l = true ∧ extractTok humidityKey numChar l = none) ∨
  (co2Key.isPrefixOf l = true ∧ extractTok co2Key numChar l = none) ∨
  (thermalKey.isPrefixOf l = true ∧ extractTok thermalKey numChar l = none) ∨
  (heatingKey.isPrefixOf l = true ∧ extractTok heatingKey wordChar l = none) ∨
  (targetKey.isPrefixOf l = true ∧ extractRange targetKey l = none)

theorem keyExclusive : ∀ (l k1 k2 : Str), k1.isPrefixOf l = true →
    k2.isPrefixOf l = true → k1.isPrefixOf k2 = true ∨ k2.isPrefixOf k1 = true := by
  intro l
  induction l with
  | nil =>
    intro k1 k2 h1 _
    cases k1 with
    | nil => exact Or.inl (by cases k2 <;> rfl)
    | cons a as => simp [List.isPrefixOf] at h1
  | cons c cs ih =>
    intro k1 k2 h1 h2
    cases k1 with
    | nil => exact Or.inl (by cases k2 <;> rfl)
    | cons a as =>
      cases k2 with
      | nil => exact Or.inr rfl
      | cons b bs =>
        simp only [List.isPrefixOf, Bool.and_eq_true, beq_iff_eq] at h1 h2
        obtain ⟨ha, has⟩ := h1
        obtain ⟨hb, hbs⟩ := h2
        subst ha
        subst hb
        rcases ih as bs has hbs with hp | hp
        · exact Or.inl (by simp [List.isPrefixOf, hp])
        · exact Or.inr (by simp [List.isPrefixOf, hp])

theorem keyNotMatched {k1 k2 l : Str} (h1 : k1.isPrefixOf l = true)
    (h12 : k1.isPrefixOf k2 = false) (h21 : k2.isPrefixOf k1 = false) :
    k2.isPrefixOf l = false := by
  cases hh : k2.isPrefixOf l with
  | false => rfl
  | true =>
    rcases keyExclusive l k1 k2 h1 hh with hp | hp
    · rw [hp] at h12
      exact absurd h12 (by decide)
    · rw [hp] at h21
      exact absurd h21 (by decide)

theorem handleCore_skip (altFn : ℚ → ℚ → ℚ) (st : Telemetry) (l : Str)
    (h : noKeyMatches l ∨ extractionFails l) :
    handleCore altFn st l = .ok (st, false) := by
  rcases h with h | h
  · obtain ⟨h1, h2, h3, h4, h5, h6, h7, h8, h9, h10, h11, h12, h13, h14⟩ := h
    unfold handleCore
    by_cases he : l = []
    · rw [if_pos he]
    · rw [if_neg he]
      simp [h1, h2, h3, h4, h5, h6, h7, h8, h9, h10, h11, h12, h13, h14]
  · rcases h with ⟨hk, hnf, hm⟩ | ⟨hk, hm⟩ | ⟨hk, hm⟩ | ⟨hk, hm⟩ | ⟨hk, hm⟩ |
      ⟨hk, hm⟩ | ⟨hk, hm⟩ | ⟨hk, hm⟩ | ⟨hk, hm⟩ | ⟨hk, hm⟩ | ⟨hk, hm⟩ |
      ⟨hk, hm⟩ | ⟨hk, hm⟩ | ⟨hk, hm⟩
    · have hne : l ≠ [] := by
        intro h0; rw [h0] at hk; exact absurd hk (by decide)
      unfold handleCore
      rw [if_neg hne]
      simp [hk, hnf, hm]
    · have hne : l ≠ [] := by
        intro h0; rw [h0] at hk; exact absurd hk (by decide)
      have e1 : gpsKey.isPrefixOf l = false := keyNotMatched hk (by decide) (by decide)
      unfold handleCore
      rw [if_neg hne]
      simp [e1, hk, hm]
    · have hne : l ≠ [] := by
        intro h0; rw [h0] at hk; exact absurd hk (by decide)
      have e1 : gpsKey.isPrefixOf l = false := keyNotMatched hk (by decide) (by decide)
      have e2 : satsKey.isPrefixOf l = false := keyNotMatched hk (by decide) (by decide)
      unfold handleCore
      rw [if_neg hne]
      simp [e1, e2, hk, hm]
    · have hne : l ≠ [] := by
        intro h0; rw [h0] at hk; exact absurd hk (by decide)
      have e1 : gpsKey.isPrefixOf l = false := keyNotMatched hk (by decide) (by decide)
      have e2 : satsKey.isPrefixOf l = false := keyNotMatched hk (by decide) (by decide)
      have e3 : utcKey.isPrefixOf l = false := keyNotMatched hk (by decide) (by decide)
      unfold handleCore
      rw [if_neg hne]
      simp [e1, e2, e3, hk, hm]
    · have hne : l ≠ [] := by
        intro h0; rw [h0] at hk; exact absurd hk (by decide)
      have e1 : gpsKey.isPrefixOf l = false := keyNotMatched hk (by decide) (by decide)
      have e2 : satsKey.isPrefixOf l = false := keyNotMatched hk (by decide) (by decide)
      have e3 : utcKey.isPrefixOf l = false := keyNotMatched hk (by decide) (by decide)
      have e4 : rtcDateKey.isPrefixOf l = false := keyNotMatched hk (by decide) (by decide)
      unfold handleCore
      rw [if_neg hne]
      simp [e1, e2, e3, e4, hk, hm]
    · have hne : l ≠ [] := by
        intro h0; rw [h0] at hk; exact absurd hk (by decide)
      have e1 : gpsKey.isPrefixOf l = false := keyNotMatched hk (by decide) (by decide)
      have e2 : satsKey.isPrefixOf l = false := keyNotMatched hk (by decide) (by decide)
      have e3 : utcKey.isPrefixOf l = false := keyNotMatched hk (by decide) (by decide)
      have e4 : rtcDateKey.isPrefixOf l = false := keyNotMatched hk (by decide) (by decide)
      have e5 : rtcTimeKey.isPrefixOf l = false := keyNotMatched hk (by decide) (by decide)
      unfold handleCore
      rw [if_neg hne]
      simp [e1, e2, e3, e4, e5, hk, hm]
    · have hne : l ≠ [] := by
        intro h0; rw [h0] at hk; exact absurd hk (by decide)
      have e1 : gpsKey.isPrefixOf l = false := keyNotMatched hk (by decide) (by decide)
      have e2 : satsKey.isPrefixOf l = false := keyNotMatched hk (by decide) (by decide)
      have e3 : utcKey.isPrefixOf l = false := keyNotMatched hk (by decide) (by decide)
      have e4 : rtcDateKey.isPrefixOf l = false := keyNotMatched hk (by decide) (by decide)
      have e5 : rtcTimeKey.isPrefixOf l = false := keyNotMatched hk (by decide) (by decide)
      have e6 : ms5611Key.isPrefixOf l = false := keyNotMatched hk (by decide) (by decide)
      unfold handleCore
      rw [if_neg hne]
      simp [e1, e2, e3, e4, e5, e6, hk, hm]
    · have hne : l ≠ [] := by
        intro h0; rw [h0] at hk; exact absurd hk (by decide)
      have e1 : gpsKey.isPrefixOf l = false := keyNotMatched hk (by decide) (by decide)
      have e2 : satsKey.isPrefixOf l = false := keyNotMatched hk (by decide) (by decide)
      have e3 : utcKey.isPrefixOf l = false := keyNotMatched hk (by decide) (by decide)
      have e4 : rtcDateKey.isPrefixOf l = false := keyNotMatched hk (by decide) (by decide)
      have e5 : rtcTimeKey.isPrefixOf l = false := keyNotMatched hk (by decide) (by decide)
      have e6 : ms5611Key.isPrefixOf l = false := keyNotMatched hk (by decide) (by decide)
      have e7 : pressureKey.isPrefixOf l = false := keyNotMatched hk (by decide) (by decide)
      unfold handleCore
      rw [if_neg hne]
      simp [e1, e2, e3, e4, e5, e6, e7, hk, hm]
    · have hne : l ≠ [] := by
        intro h0; rw [h0] at hk; exact absurd hk (by decide)
      have e1 : gpsKey.isPrefixOf l = false := keyNotMatched hk (by decide) (by decide)
      have e2 : satsKey.isPrefixOf l = false := keyNotMatched hk (by decide) (by decide)
      have e3 : utcKey.isPrefixOf l = false := keyNotMatched hk (by decide) (by decide)
      have e4 : rtcDateKey.isPrefixOf l = false := keyNotMatched hk (by decide) (by decide)
      have e5 : rtcTimeKey.isPrefixOf l = false := keyNotMatched hk (by decide) (by decide)
      have e6 : ms5611Key.isPrefixOf l = false := keyNotMatched hk (by decide) (by decide)
      have e7 : pressureKey.isPrefixOf l = false := keyNotMatched hk (by decide) (by decide)
      have e8 : ds18b20Key.isPrefixOf l = false := keyNotMatched hk (by decide) (by decide)
      unfold handleCore
      rw [if_neg hne]
      simp [e1, e2, e3, e4, e5, e6, e7, e8, hk, hm]
    · have hne : l ≠ [] := by
        intro h0; rw [h0] at hk; exact absurd hk (by decide)
      have e1 : gpsKey.isPrefixOf l = false := keyNotMatched hk (by decide) (by decide)
      have e2 : satsKey.isPrefixOf l = false := keyNotMatched hk (by decide) (by decide)
      have e3 : utcKey.isPrefixOf l = false := keyNotMatched hk (by decide) (by decide)
      have e4 : rtcDateKey.isPrefixOf l = false := keyNotMatched hk (by decide) (by decide)
      have e5 : rtcTimeKey.isPrefixOf l = false := keyNotMatched hk (by decide) (by decide)
      have e6 : ms5611Key.isPrefixOf l = false := keyNotMatched hk (by decide) (by decide)
      have e7 : pressureKey.isPrefixOf l = false := keyNotMatched hk (by decide) (by decide)
      have e8 : ds18b20Key.isPrefixOf l = false := keyNotMatched hk (by decide) (by decide)
      have e9 : scd30Key.isPrefixOf l = false := keyNotMatched hk (by decide) (by decide)
      unfold handleCore
      rw [if_neg hne]
      simp [e1, e2, e3, e4, e5, e6, e7, e8, e9, hk, hm]
    · have hne : l ≠ [] := by
        intro h0; rw [h0] at hk; exact absurd hk (by decide)
      have e1 : gpsKey.isPrefixOf l = false := keyNotMatched hk (by decide) (by decide)
      have e2 : satsKey.isPrefixOf l = false := keyNotMatched hk (by decide) (by decide)
      have e3 : utcKey.isPrefixOf l = false := keyNotMatched hk (by decide) (by decide)
      have e4 : rtcDateKey.isPrefixOf l = false := keyNotMatched hk (by decide) (by decide)
      have e5 : rtcTimeKey.isPrefixOf l = false := keyNotMatched hk (by decide) (by decide)
      have e6 : ms5611Key.isPrefixOf l = false := keyNotMatched hk (by decide) (by decide)
      have e7 : pressureKey.isPrefixOf l = false := keyNotMatched hk (by decide) (by decide)
      have e8 : ds18b20Key.isPrefixOf l = false := keyNotMatched hk (by decide) (by decide)
      have e9 : scd30Key.isPrefixOf l = false := keyNotMatched hk (by decide) (by decide)
      have e10 : humidityKey.isPrefixOf l = false := keyNotMatched hk (by decide) (by decide)
      unfold handleCore
      rw [if_neg hne]
      simp [e1, e2, e3, e4, e5, e6, e7, e8, e9, e10, hk, hm]
    · have hne : l ≠ [] := by
        intro h0; rw [h0] at hk; exact absurd hk (by decide)
      have e1 : gpsKey.isPrefixOf l = false := keyNotMatched hk (by decide) (by decide)
      have e2 : satsKey.isPrefixOf l = false := keyNotMatched hk (by decide) (by decide)
      have e3 : utcKey.isPrefixOf l = false := keyNotMatched hk (by decide) (by decide)
      have e4 : rtcDateKey.isPrefixOf l = false := keyNotMatched hk (by decide) (by decide)
      have e5 : rtcTimeKey.isPrefixOf l = false := keyNotMatched hk (by decide) (by decide)
      have e6 : ms5611Key.isPrefixOf l = false := keyNotMatched hk (by decide) (by decide)
      have e7 : pressureKey.isPrefixOf l = false := keyNotMatched hk (by decide) (by decide)
      have e8 : ds18b20Key.isPrefixOf l = false := keyNotMatched hk (by decide) (by decide)
      have e9 : scd30Key.isPrefixOf l = false := keyNotMatched hk (by decide) (by decide)
      have e10 : humidityKey.isPrefixOf l = false := keyNotMatched hk (by decide) (by decide)
      have e11 : co2Key.isPrefixOf l = false := keyNotMatched hk (by decide) (by decide)
      unfold handleCore
      rw [if_neg hne]
      simp [e1, e2, e3, e4, e5, e6, e7, e8, e9, e10, e11, hk, hm]
    · have hne : l ≠ [] := by
        intro h0; rw [h0] at hk; exact absurd hk (by decide)
      have e1 : gpsKey.isPrefixOf l = false := keyNotMatched hk (by decide) (by decide)
      have e2 : satsKey.isPrefixOf l = false := keyNotMatched hk (by decide) (by decide)
      have e3 : utcKey.isPrefixOf l = false := keyNotMatched hk (by decide) (by decide)
      have e4 : rtcDateKey.isPrefixOf l = false := keyNotMatched hk (by decide) (by decide)
      have e5 : rtcTimeKey.isPrefixOf l = false := keyNotMatched hk (by decide) (by decide)
      have e6 : ms5611Key.isPrefixOf l = false := keyNotMatched hk (by decide) (by decide)
      have e7 : pressureKey.isPrefixOf l = false := keyNotMatched hk (by decide) (by decide)
      have e8 : ds18b20Key.isPrefixOf l = false := keyNotMatched hk (by decide) (by decide)
      have e9 : scd30Key.isPrefixOf l = false := keyNotMatched hk (by decide) (by decide)
      have e10 : humidityKey.isPrefixOf l = false := keyNotMatched hk (by decide) (by decide)
      have e11 : co2Key.isPrefixOf l = false := keyNotMatched hk (by decide) (by decide)
      have e12 : thermalKey.isPrefixOf l = false := keyNotMatched hk (by decide) (by decide)
      unfold handleCore
      rw [if_neg hne]
      simp [e1, e2, e3, e4, e5, e6, e7, e8, e9, e10, e11, e12, hk, hm]
    · have hne : l ≠ [] := by
        intro h0; rw [h0] at hk; exact absurd hk (by decide)
      have e1 : gpsKey.isPrefixOf l = false := keyNotMatched hk (by decide) (by decide)
      have e2 : satsKey.isPrefixOf l = false := keyNotMatched hk (by decide) (by decide)
      have e3 : utcKey.isPrefixOf l = false := keyNotMatched hk (by decide) (by decide)
      have e4 : rtcDateKey.isPrefixOf l = false := keyNotMatched hk (by decide) (by decide)
      have e5 : rtcTimeKey.isPrefixOf l = false := keyNotMatched hk (by decide) (by decide)
      have e6 : ms5611Key.isPrefixOf l = false := keyNotMatched hk (by decide) (by decide)
      have e7 : pressureKey.isPrefixOf l = false := keyNotMatched hk (by decide) (by decide)
      have e8 : ds18b20Key.isPrefixOf l = false := keyNotMatched hk (by decide) (by decide)
      have e9 : scd30Key.isPrefixOf l = false := keyNotMatched hk (by decide) (by decide)
      have e10 : humidityKey.isPrefixOf l = false := keyNotMatched hk (by decide) (by decide)
      have e11 : co2Key.isPrefixOf l = false := keyNotMatched hk (by decide) (by decide)
      have e12 : thermalKey.isPrefixOf l = false := keyNotMatched hk (by decide) (by decide)
      have e13 : heatingKey.isPrefixOf l = false := keyNotMatched hk (by decide) (by decide)
      unfold handleCore
      rw [if_neg hne]
      simp [e1, e2, e3, e4, e5, e6, e7, e8, e9, e10, e11, e12, e13, hk, hm]

/-- C6 (amended): a line matching no known key, or one whose value fails
its handler's extraction pattern (the `if match:` guard), is skipped and
decoding of the remaining lines continues unchanged — but, per the
counterexample, a captured value that fails `float()` conversion aborts
the block, so the claim holds only for lines that never reach a failing
conversion. -/
theorem unknown_key_line_skipped (altFn : ℚ → ℚ → ℚ) (st : Telemetry)
    (b : Bool) (pre post : List Str) (l : Str)
    (h : noKeyMatches (pyStrip l) ∨ extractionFails (pyStrip l)) :
    parseLines altFn st b (pre ++ l :: post) = parseLines altFn st b (pre ++ post) := by
  induction pre generalizing st b with
  | nil =>
    have hl : handleLine altFn st l = Except.ok (st, false) :=
      handleCore_skip altFn st (pyStrip l) h
    simp only [List.nil_append, parseLines, hl, Bool.or_false]
  | cons p ps ih =>
    simp only [List.cons_append, parseLines]
    cases hh : handleLine altFn st p with
    | ok r =>
      obtain ⟨st2, u⟩ := r
      exact ih st2 (b || u)
    | error st2 => rfl

/-- C6 witness: the amended theorem applied between two known lines, once
to a concrete unknown-key line (`Foo: 1`) and once to a known-key line
whose value fails the extraction pattern (`Sats: xyz`). -/
theorem unknown_key_line_skipped_witness :
    (parseLines (fun _ _ => 0) initTelemetry false
        ([("Pressure: 500").toList] ++ ("Foo: 1").toList :: [("Humidity: 45.5").toList]) =
      parseLines (fun _ _ => 0) initTelemetry false
        ([("Pressure: 500").toList] ++ [("Humidity: 45.5").toList])) ∧
    (parseLines (fun _ _ => 0) initTelemetry false
        ([("Pressure: 500").toList] ++ ("Sats: xyz").toList :: [("Humidity: 45.5").toList]) =
      parseLines (fun _ _ => 0) initTelemetry false
        ([("Pressure: 500").toList] ++ [("Humidity: 45.5").toList])) :=
  ⟨unknown_key_line_skipped (fun _ _ => 0) initTelemetry false
    [("Pressure: 500").toList] [("Humidity: 45.5").toList] (("Foo: 1").toList)
    (Or.inl (by unfold noKeyMatches; decide)),
   unknown_key_line_skipped (fun _ _ => 0) initTelemetry false
    [("Pressure: 500").toList] [("Humidity: 45.5").toList] (("Sats: xyz").toList)
    (Or.inr (by unfold extractionFails; decide))⟩

/-- The end-of-block delimiter line of `read_serial_data` (26 `=`). -/
def eqMark : Str := ("==========================").toList

/-- The gating substring check of `read_serial_data` before any slicing:
`("GPS:" in buf and "Target Range:" in buf) or ("=====...=" in buf)`. -/
def gateCheck (buf : Str) : Bool :=
  (containsSub gpsKey buf && containsSub targetKey buf) || containsSub eqMark buf

/-- The index scan of `read_serial_data`: every line whose stripped form
starts with `GPS:` overwrites `start_idx`; the first line whose stripped
form equals the delimiter sets `end_idx` and breaks. -/
def scanBlock : List Str → ℕ → Option ℕ → Option ℕ × Option ℕ
  | [], _, acc => (acc, none)
  | l :: ls, i, acc =>
    if gpsKey.isPrefixOf (pyStrip l) then scanBlock ls (i + 1) (some i)
    else if pyStrip l = eqMark then (acc, some i)
    else scanBlock ls (i + 1) acc

/-- The block-slicing step of `DataReader.read_serial_data`: when the gate
passes and both indices are found, return the sliced block
(`lines[start_idx:end_idx+1]`) and the retained remainder
(`lines[end_idx+1:]`, rejoined as the new buffer). -/
def sliceBuffer (buf : Str) : Option (Str × Str) :=
  if gateCheck buf then
    match scanBlock (splitLines buf) 0 none with
    | (some s, some e) =>
      some (joinLines (((splitLines buf).drop s).take (e + 1 - s)),
        joinLines ((splitLines buf).drop (e + 1)))
    | _ => none
  else none

/-- First index at or after `i` whose line satisfies `p`. -/
def firstIdxFrom (p : Str → Bool) : List Str → ℕ → Option ℕ
  | [], _ => none
  | l :: ls, i => if p l then some i else firstIdxFrom p ls (i + 1)

/-- Modelled from the spec's words, for refinement comparison with
`sliceBuffer`: slice between the FIRST start marker and the next end
marker, retaining everything after the end marker. -/
def sliceBufferSpec (buf : Str) : Option (Str × Str) :=
  match firstIdxFrom (fun l => gpsKey.isPrefixOf (pyStrip l)) (splitLines buf) 0 with
  | none => none
  | some s =>
    match firstIdxFrom (fun l => pyStrip l == eqMark) ((splitLines buf).drop (s + 1)) (s + 1) with
    | none => none
    | some e =>
      some (joinLines (((splitLines buf).drop s).take (e + 1 - s)),
        joinLines ((splitLines buf).drop (e + 1)))

/-- A buffer holding two `GPS:` start-marker lines before the delimiter. -/
def twoStartBuf : Str :=
  ("GPS: No Fix\nGPS: 1.5, 2.5 (Alt: 3.5 m)\n==========================\ntail").toList

/-- C7 (counterexample): with two start-marker lines before the end
marker, the code slices from the LAST start marker before the delimiter
(`start_idx` is overwritten on every `GPS:` line), not from the first
start marker as the claim states. -/
theorem slice_uses_last_start_marker :
    (sliceBuffer twoStartBuf).isSome = true ∧
    sliceBuffer twoStartBuf ≠ sliceBufferSpec twoStartBuf := by decide

theorem scanBlock_append_noEnd (pre : List Str) :
    (∀ l ∈ pre, pyStrip l ≠ eqMark) →
    ∀ (rest : List Str) (i : ℕ) (acc : Option ℕ),
      ∃ acc2, scanBlock (pre ++ rest) i acc = scanBlock rest (i + pre.length) acc2 := by
  induction pre with
  | nil =>
    intro _ rest i acc
    exact ⟨acc, by simp⟩
  | cons p ps ih =>
    intro h rest i acc
    have hp : pyStrip p ≠ eqMark := h p (by simp)
    have hps : ∀ l ∈ ps, pyStrip l ≠ eqMark := fun l hl => h l (by simp [hl])
    by_cases hg : gpsKey.isPrefixOf (pyStrip p)
    · obtain ⟨acc2, he⟩ := ih hps rest (i + 1) (some i)
      refine ⟨acc2, ?_⟩
      rw [List.cons_append]
      simp only [scanBlock]
      rw [if_pos hg, he]
      rw [show i + (p :: ps).length = i + 1 + ps.length from by simp; omega]
    · obtain ⟨acc2, he⟩ := ih hps rest (i + 1) acc
      refine ⟨acc2, ?_⟩
      rw [List.cons_append]
      simp only [scanBlock]
      rw [if_neg hg, if_neg hp, he]
      rw [show i + (p :: ps).length = i + 1 + ps.length from by simp; omega]

theorem scanBlock_append_mid (mid : List Str) :
    (∀ l ∈ mid, pyStrip l ≠ eqMark ∧ gpsKey.isPrefixOf (pyStrip l) = false) →
    ∀ (rest : List Str) (i : ℕ) (acc : Option ℕ),
      scanBlock (mid ++ rest) i acc = scanBlock rest (i + mid.length) acc := by
  induction mid with
  | nil => intro _ rest i acc; simp
  | cons p ps ih =>
    intro h rest i acc
    have hp := h p (by simp)
    have hps : ∀ l ∈ ps, pyStrip l ≠ eqMark ∧ gpsKey.isPrefixOf (pyStrip l) = false :=
      fun l hl => h l (by simp [hl])
    have hg : ¬ (gpsKey.isPrefixOf (pyStrip p) = true) := by simp [hp.2]
    rw [List.cons_append]
    simp only [scanBlock]
    rw [if_neg hg, if_neg hp.1, ih hps rest (i + 1) acc]
    rw [show i + (p :: ps).length = i + 1 + ps.length from by simp; omega]

theorem take_len_add {α : Type} (l₁ : List α) (n : ℕ) :
    ∀ l₂ : List α, (l₁ ++ l₂).take (l₁.length + n) = l₁ ++ l₂.take n := by
  induction l₁ with
  | nil => intro l₂; simp
  | cons a t ih =>
    intro l₂
    rw [List.cons_append]
    rw [show (a :: t).length + n = (t.length + n) + 1 from by simp; omega]
    rw [List.take_succ_cons, ih l₂]
    rfl

theorem drop_len_add {α : Type} (l₁ : List α) (n : ℕ) :
    ∀ l₂ : List α, (l₁ ++ l₂).drop (l₁.length + n) = l₂.drop n := by
  induction l₁ with
  | nil => intro l₂; simp
  | cons a t ih =>
    intro l₂
    rw [List.cons_append]
    rw [show (a :: t).length + n = (t.length + n) + 1 from by simp; omega]
    rw [List.drop_succ_cons, ih l₂]

/-- C7 (amended): when the buffer's lines are `pre ++ [g] ++ mid ++ [e] ++
post` with no delimiter in `pre` or `mid`, `g` a start-marker line, no
further start marker in `mid`, and `e` the first delimiter line, the code
slices out the block from `g` — the LAST start marker before the first end
marker — through `e`, and retains everything after `e` as the new buffer
(the remainder is kept, not discarded). -/
theorem slice_last_start_to_end (buf : Str) (pre mid post : List Str) (g e : Str)
    (hsplit : splitLines buf = pre ++ g :: (mid ++ e :: post))
    (hpre : ∀ l ∈ pre, pyStrip l ≠ eqMark)
    (hg : gpsKey.isPrefixOf (pyStrip g) = true)
    (hmid : ∀ l ∈ mid, pyStrip l ≠ eqMark ∧ gpsKey.isPrefixOf (pyStrip l) = false)
    (he : pyStrip e = eqMark)
    (hgate : gateCheck buf = true) :
    sliceBuffer buf = some (joinLines (g :: (mid ++ [e])), joinLines post) := by
  have hescan : scanBlock (splitLines buf) 0 none
      = (some pre.length, some (pre.length + 1 + mid.length)) := by
    rw [hsplit]
    obtain ⟨acc2, hs1⟩ := scanBlock_append_noEnd pre hpre (g :: (mid ++ e :: post)) 0 none
    rw [hs1]
    rw [show scanBlock (g :: (mid ++ e :: post)) (0 + pre.length) acc2
        = scanBlock (mid ++ e :: post) (0 + pre.length + 1) (some (0 + pre.length)) from by
      simp only [scanBlock]; rw [if_pos hg]]
    rw [scanBlock_append_mid mid hmid (e :: post) (0 + pre.length + 1) (some (0 + pre.length))]
    rw [show scanBlock (e :: post) (0 + pre.length + 1 + mid.length) (some (0 + pre.length))
        = (some (0 + pre.length), some (0 + pre.length + 1 + mid.length)) from by
      simp only [scanBlock]
      rw [if_neg (by rw [he]; decide), if_pos he]]
    simp
  have hdrop1 : (splitLines buf).drop pre.length = g :: (mid ++ e :: post) := by
    rw [hsplit]
    have hdla := drop_len_add pre 0 (g :: (mid ++ e :: post))
    simpa using hdla
  have htake0 : (g :: (mid ++ e :: post)).take (mid.length + 2) = g :: (mid ++ [e]) := by
    rw [show mid.length + 2 = (mid.length + 1) + 1 from rfl]
    rw [List.take_succ_cons]
    congr 1
    have h2 : (mid ++ e :: post).take (mid.length + 1) = mid ++ (e :: post).take 1 :=
      take_len_add mid 1 (e :: post)
    rw [h2]
    rfl
  have hdrop2 : (splitLines buf).drop (pre.length + 1 + mid.length + 1) = post := by
    rw [hsplit]
    rw [show pre ++ g :: (mid ++ e :: post) = (pre ++ g :: (mid ++ [e])) ++ post from by simp]
    have hlen : (pre ++ g :: (mid ++ [e])).length = pre.length + 1 + mid.length + 1 := by
      simp
      omega
    rw [← hlen]
    have hdlb := drop_len_add (pre ++ g :: (mid ++ [e])) 0 post
    simpa using hdlb
  unfold sliceBuffer
  rw [hgate, if_pos rfl, hescan]
  show some (joinLines (((splitLines buf).drop pre.length).take
        (pre.length + 1 + mid.length + 1 - pre.length)),
      joinLines ((splitLines buf).drop (pre.length + 1 + mid.length + 1))) = _
  rw [hdrop1]
  rw [show pre.length + 1 + mid.length + 1 - pre.length = mid.length + 2 from by omega]
  rw [htake0, hdrop2]

/-- C7 witness: the amended theorem applied to a concrete buffer with one
leading junk line, one start marker, the delimiter, and a retained tail. -/
theorem slice_last_start_to_end_witness :
    sliceBuffer (("x\nGPS: No Fix\n==========================\nrest").toList)
      = some (joinLines [("GPS: No Fix").toList, eqMark], joinLines [("rest").toList]) :=
  slice_last_start_to_end (("x\nGPS: No Fix\n==========================\nrest").toList)
    [("x").toList] [] [("rest").toList] (("GPS: No Fix").toList) eqMark
    (by decide) (by decide) (by decide) (by decide) (by decide) (by decide)

/-- Outcome of one `read_serial_data` call in device mode: a block was
decoded (`readOk`), the 5-second window elapsed with nothing decoded
(`readNoData`), or a `SerialException` tore the connection down
(`readExc`). -/
inductive ReadOutcome
  | readOk
  | readNoData
  | readExc
deriving DecidableEq

/-- The `system_status` record of `app/data_store.py`. -/
structure SysStatus where
  last_update : ℚ
  data_source : Str
  connection_status : Str
  error_count : ℕ
deriving DecidableEq

/-- `update_system_status` from `app/data_store.py`. -/
def update_system_status (now : ℚ) (source : Str) (isErr : Bool)
    (st : SysStatus) : SysStatus where
  last_update := now
  data_source := source
  connection_status := if isErr then ("error").toList else ("connected").toList
  error_count := if isErr then st.error_count + 1 else st.error_count

/-- The loop state of `DataReader.run_reader` relevant to scheduling and
fallback: the configured mode (`config.USE_MOCK`), the consecutive-failure
counter, the drift-corrected deadline, and the shared status record. -/
structure ReaderState where
  use_mock : Bool
  consecutive_failures : ℕ
  next_update_time : ℚ
  status : SysStatus
deriving DecidableEq

/-- Observable effects of one tick: the `source` tag of the payload given
to `socketio.emit` (if any), whether `generate_realistic_mock_data` ran,
and how many `update_system_status` calls were made. -/
structure TickEffects where
  emittedSource : Option Str
  generatedMock : Bool
  statusCalls : ℕ
deriving DecidableEq

/-- The `source` label `"mock" if config.USE_MOCK else "device"` used by
`emit_data` and by the post-emit `update_system_status` call. -/
def sourceLabel (useMock : Bool) : Str :=
  if useMock then ("mock").toList else ("device").toList

/-- One guarded iteration body of `DataReader.run_reader` (executed when
`current_time >= next_update_time`): read or generate data, apply the
fallback policy at 5 consecutive failures (without touching the configured
mode), publish and update status on success, then advance the deadline by
the interval — resetting it to `now2 + interval` only when the advanced
deadline is already at or behind the post-processing clock `now2`. -/
def runTick (outcome : ReadOutcome) (now now2 interval : ℚ)
    (s : ReaderState) : ReaderState × TickEffects :=
  let rd : SysStatus × Bool × ℕ :=
    if s.use_mock then (s.status, true, 0)
    else
      match outcome with
      | .readOk => (s.status, true, 0)
      | .readNoData => (s.status, false, 0)
      | .readExc => (update_system_status now (("device").toList) true s.status, false, 1)
  let st1 := rd.1
  let data0 := rd.2.1
  let calls1 := rd.2.2
  let fb : ℕ × Bool × Bool :=
    if s.use_mock then (0, true, false)
    else if data0 then (0, true, false)
    else if 5 ≤ s.consecutive_failures + 1 then (0, true, true)
    else (s.consecutive_failures + 1, false, false)
  let fail1 := fb.1
  let data1 := fb.2.1
  let fbMock := fb.2.2
  let post : SysStatus × Option Str × ℕ :=
    if data1 then
      (update_system_status now (sourceLabel s.use_mock) false st1,
        some (sourceLabel s.use_mock), calls1 + 1)
    else (st1, none, calls1)
  let nd0 := s.next_update_time + interval
  let nd1 := if nd0 ≤ now2 then now2 + interval else nd0
  ({ use_mock := s.use_mock, consecutive_failures := fail1,
     next_update_time := nd1, status := post.1 },
   { emittedSource := post.2.1, generatedMock := s.use_mock || fbMock,
     statusCalls := post.2.2 })

/-- A device-mode loop state with 4 accumulated consecutive failures. -/
def stateAt4Failures : ReaderState where
  use_mock := false
  consecutive_failures := 4
  next_update_time := 1
  status := { last_update := 0, data_source := ("mock").toList,
              connection_status := ("connected").toList, error_count := 0 }

/-- C1 (counterexample): on the 5th consecutive failed device read the
fallback does substitute a synthetic sample and reset the counter, but the
published payload's `source` tag is computed from `config.USE_MOCK`, so it
is `"device"`, not `"mock"` as the claim states. -/
theorem fallback_tick_emits_device_source :
    (runTick .readNoData 1 1 1 stateAt4Failures).2.generatedMock = true ∧
    (runTick .readNoData 1 1 1 stateAt4Failures).1.consecutive_failures = 0 ∧
    (runTick .readNoData 1 1 1 stateAt4Failures).2.emittedSource = some (("device").toList) ∧
    some (("device").toList) ≠ some (("mock").toList) := by
  refine ⟨rfl, rfl, rfl, by decide⟩

/-- C1 (amended): in device mode, after 5 consecutive failed device reads
the supervisor substitutes a synthetic (mock) sample for that tick, the
configured mode is unchanged and the failure counter is 0 immediately
after — but the published sample carries `source == "device"` (the label
derived from the configured mode), not `"mock"`. -/
theorem fallback_substitutes_mock_sample (outcome : ReadOutcome)
    (now now2 interval : ℚ) (s : ReaderState)
    (hm : s.use_mock = false) (hf : s.consecutive_failures = 4)
    (ho : outcome ≠ .readOk) :
    (runTick outcome now now2 interval s).2.generatedMock = true ∧
    (runTick outcome now now2 interval s).1.consecutive_failures = 0 ∧
    (runTick outcome now now2 interval s).1.use_mock = false ∧
    (runTick outcome now now2 interval s).2.emittedSource = some (("device").toList) := by
  obtain ⟨um, cf, nu, st⟩ := s
  simp only at hm hf
  subst hm hf
  cases outcome with
  | readOk => exact absurd rfl ho
  | readNoData => exact ⟨rfl, rfl, rfl, rfl⟩
  | readExc => exact ⟨rfl, rfl, rfl, rfl⟩

/-- C1 witness: the amended theorem applied at a concrete tick. -/
theorem fallback_substitutes_mock_sample_witness :
    (runTick .readExc 2 2 1 stateAt4Failures).2.generatedMock = true ∧
    (runTick .readExc 2 2 1 stateAt4Failures).1.consecutive_failures = 0 ∧
    (runTick .readExc 2 2 1 stateAt4Failures).1.use_mock = false ∧
    (runTick .readExc 2 2 1 stateAt4Failures).2.emittedSource = some (("device").toList) :=
  fallback_substitutes_mock_sample .readExc 2 2 1 stateAt4Failures rfl rfl (by decide)

/-- C2: whenever a tick runs (`now >= next_update_time`), the deadline is
advanced by exactly the configured interval (`next_update_time += interval`,
not `now + interval`); only when the advanced deadline is already at or
behind the post-processing clock is it reset to `now2 + interval`. -/
theorem tick_deadline_drift_corrected (outcome : ReadOutcome)
    (now now2 interval : ℚ) (s : ReaderState)
    (hrun : s.next_update_time ≤ now) :
    (now2 < s.next_update_time + interval →
      (runTick outcome now now2 interval s).1.next_update_time
        = s.next_update_time + interval) ∧
    (s.next_update_time + interval ≤ now2 →
      (runTick outcome now now2 interval s).1.next_update_time
        = now2 + interval) := by
  have hnd : (runTick outcome now now2 interval s).1.next_update_time
      = if s.next_update_time + interval ≤ now2 then now2 + interval
        else s.next_update_time + interval := rfl
  constructor
  · intro hlt
    rw [hnd, if_neg (not_le.mpr hlt)]
  · intro hle
    rw [hnd, if_pos hle]

/-- C2 witness: the theorem applied at a concrete overrunning tick, where
the advanced deadline `1 + 2` is behind the clock `5` and is reset. -/
theorem tick_deadline_drift_corrected_witness :
    (runTick .readOk 5 5 2 stateAt4Failures).1.next_update_time = 5 + 2 :=
  (tick_deadline_drift_corrected .readOk 5 5 2 stateAt4Failures (by decide)).2
    (by norm_num [stateAt4Failures])

/-- A device-mode loop state with no accumulated failures. -/
def stateNoFailures : ReaderState where
  use_mock := false
  consecutive_failures := 0
  next_update_time := 1
  status := { last_update := 0, data_source := ("mock").toList,
              connection_status := ("connected").toList, error_count := 0 }

/-- C9 (counterexample): a device-mode tick whose read returns no data
(and raises no serial exception), while the failure count stays below the
fallback threshold, makes no `update_system_status` call at all: the status
record after the tick is identical to the one before, although an
ingestion attempt happened. -/
theorem silent_failure_skips_status_update :
    (runTick .readNoData 7 7 1 stateNoFailures).2.statusCalls = 0 ∧
    (runTick .readNoData 7 7 1 stateNoFailures).1.status = stateNoFailures.status := by
  exact ⟨rfl, rfl⟩

/-- C9 (amended): the system status record is updated on every successful
tick — whenever the tick publishes (mock generation, successful device
read, or fallback substitution alike), `update_system_status` runs after
`emit_data`, stamping the tick time, the configured-mode source label and
`connected` — and on serial exceptions the error count is incremented; but
an ingestion attempt whose device read fails silently below the fallback
threshold performs no status update at all. -/
theorem status_updated_on_success_and_exception (outcome : ReadOutcome)
    (now now2 interval : ℚ) (s : ReaderState) :
    ((runTick outcome now now2 interval s).2.emittedSource.isSome = true →
      1 ≤ (runTick outcome now now2 interval s).2.statusCalls ∧
      (runTick outcome now now2 interval s).1.status.last_update = now ∧
      (runTick outcome now now2 interval s).1.status.data_source
        = sourceLabel s.use_mock ∧
      (runTick outcome now now2 interval s).1.status.connection_status
        = ("connected").toList) ∧
    (s.use_mock = false → outcome = ReadOutcome.readExc →
      (runTick outcome now now2 interval s).1.status.error_count
        = s.status.error_count + 1 ∧
      1 ≤ (runTick outcome now now2 interval s).2.statusCalls) ∧
    (s.use_mock = false → outcome = ReadOutcome.readNoData →
      s.consecutive_failures + 1 < 5 →
      (runTick outcome now now2 interval s).2.statusCalls = 0 ∧
      (runTick outcome now now2 interval s).1.status = s.status) := by
  obtain ⟨um, cf, nu, st⟩ := s
  refine ⟨?_, ?_, ?_⟩
  · cases um with
    | true =>
      intro _
      exact ⟨Nat.le_refl 1, rfl, rfl, rfl⟩
    | false =>
      cases outcome with
      | readOk =>
        intro _
        exact ⟨Nat.le_refl 1, rfl, rfl, rfl⟩
      | readNoData =>
        by_cases hcf : 5 ≤ cf + 1
        · intro _
          refine ⟨?_, ?_, ?_, ?_⟩ <;>
            simp [runTick, update_system_status, hcf]
        · intro hcontra
          simp [runTick, hcf] at hcontra
      | readExc =>
        by_cases hcf : 5 ≤ cf + 1
        · intro _
          refine ⟨?_, ?_, ?_, ?_⟩ <;>
            simp [runTick, update_system_status, hcf]
        · intro hcontra
          simp [runTick, hcf] at hcontra
  · intro hm ho
    simp only at hm
    subst hm
    subst ho
    by_cases hcf : 5 ≤ cf + 1
    · simp [runTick, update_system_status, hcf]
    · simp [runTick, update_system_status, hcf]
  · intro hm ho hlt
    simp only at hm hlt
    subst hm
    subst ho
    have hcf : ¬ 5 ≤ cf + 1 := by omega
    simp [runTick, hcf]

/-- C9 witness: the amended theorem applied at concrete ticks — a
publishing (successful) tick, a serial-exception tick and a silent
sub-threshold failure. -/
theorem status_updated_on_success_and_exception_witness :
    (1 ≤ (runTick .readOk 3 3 1 stateNoFailures).2.statusCalls ∧
      (runTick .readOk 3 3 1 stateNoFailures).1.status.last_update = 3 ∧
      (runTick .readOk 3 3 1 stateNoFailures).1.status.data_source
        = sourceLabel stateNoFailures.use_mock ∧
      (runTick .readOk 3 3 1 stateNoFailures).1.status.connection_status
        = ("connected").toList) ∧
    ((runTick .readExc 3 3 1 stateNoFailures).1.status.error_count
      = stateNoFailures.status.error_count + 1) ∧
    ((runTick .readNoData 3 3 1 stateNoFailures).2.statusCalls = 0 ∧
      (runTick .readNoData 3 3 1 stateNoFailures).1.status = stateNoFailures.status) :=
  ⟨(status_updated_on_success_and_exception .readOk 3 3 1 stateNoFailures).1 (by decide),
   ((status_updated_on_success_and_exception .readExc 3 3 1 stateNoFailures).2.1
     rfl rfl).1,
   (status_updated_on_success_and_exception .readNoData 3 3 1 stateNoFailures).2.2
     rfl rfl (by decide)⟩

/-- The allow-listed baud rates (`config.AVAILABLE_BAUD_RATES`). -/
def allowedBaudRates : List ℤ := [9600, 19200, 38400, 57600, 115200]

/-- The mutable configuration touched by `update_config` in
`app/routes.py`. -/
structure AppConfig where
  use_mock : Bool
  serial_port : Str
  baud_rate : ℤ
  timeout : ℚ
deriving DecidableEq

/-- The JSON body of a `POST /api/config` request: each key optional. -/
structure ConfigRequest where
  use_mock : Option Bool
  serial_port : Option Str
  baud_rate : Option ℤ
  timeout : Option ℚ
deriving DecidableEq

/-- Result of `update_config`: the configuration afterwards, whether the
response reported success, and how many stop-and-restart cycles of the
reader were performed before returning. -/
structure ConfigOutcome where
  cfg : AppConfig
  success : Bool
  restarts : ℕ
deriving DecidableEq

/-- Timeout stage of `update_config`: validated (`0 < t ≤ 10`) before
assignment; an invalid value returns the error response immediately. -/
def update_config_timeout (c : AppConfig) (req : ConfigRequest)
    (r msgs : ℕ) : ConfigOutcome :=
  match req.timeout with
  | some t =>
    if t ≤ 0 ∨ 10 < t then { cfg := c, success := false, restarts := r }
    else { cfg := { c with timeout := t }, success := true, restarts := r }
  | none => { cfg := c, success := decide (0 < msgs), restarts := r }

/-- Baud stage of `update_config`: membership in the allow-list is checked
before assignment; on success the reader is restarted when in device
mode. -/
def update_config_baud (c : AppConfig) (req : ConfigRequest)
    (r msgs : ℕ) : ConfigOutcome :=
  match req.baud_rate with
  | some b =>
    if allowedBaudRates.contains b = false then
      { cfg := c, success := false, restarts := r }
    else
      update_config_timeout { c with baud_rate := b } req
        (r + if c.use_mock then 0 else 1) (msgs + 1)
  | none => update_config_timeout c req r msgs

/-- `update_config` from `app/routes.py`: the four request keys are
processed in order (`use_mock`, `serial_port`, `baud_rate`, `timeout`);
each is validated just before being applied, an invalid value returns an
error response at that point, and mode/port/baud changes restart the
reader as they are applied. -/
def update_config (c0 : AppConfig) (req : ConfigRequest) : ConfigOutcome :=
  let s1 : AppConfig × ℕ × ℕ :=
    match req.use_mock with
    | some v => ({ c0 with use_mock := v }, 1, 1)
    | none => (c0, 0, 0)
  match req.serial_port with
  | some p =>
    let np := pyUpper (pyStrip p)
    if (("COM").toList.isPrefixOf np || ("/dev/").toList.isPrefixOf np) = false then
      { cfg := s1.1, success := false, restarts := s1.2.1 }
    else
      update_config_baud { s1.1 with serial_port := np } req
        (s1.2.1 + if s1.1.use_mock then 0 else 1) (s1.2.2 + 1)
  | none => update_config_baud s1.1 req s1.2.1 s1.2.2

/-- The default configuration of `app/config.py` (device mode, `COM7`,
9600 baud, 1 second timeout). -/
def defaultConfig : AppConfig where
  use_mock := false
  serial_port := ("COM7").toList
  baud_rate := 9600
  timeout := 1

/-- C8 (counterexample): a request carrying a valid baud (115200) together
with an invalid timeout (20) is rejected — yet before the rejection the
baud stage has already changed the configured baud from 9600 to 115200 and
restarted the reader once, so an invalid parameter is not always rejected
before any restart with state untouched. -/
theorem invalid_timeout_after_valid_baud_mutates :
    (update_config defaultConfig ⟨none, none, some 115200, some 20⟩).success = false ∧
    (update_config defaultConfig ⟨none, none, some 115200, some 20⟩).cfg.baud_rate = 115200 ∧
    defaultConfig.baud_rate = 9600 ∧
    (update_config defaultConfig ⟨none, none, some 115200, some 20⟩).restarts = 1 := by
  refine ⟨rfl, rfl, rfl, rfl⟩

/-- C8 (amended): a reconfigure request whose ONLY parameter is an invalid
baud rate, an invalid timeout, or an unrecognized port spelling is rejected
synchronously with an error before any restart and leaves every
configuration field unchanged; in a multi-key request, keys processed
before the invalid one (mode, then port, then baud, then timeout) have
already been applied — possibly with restarts — by the time the error is
returned, as the counterexample shows. -/
theorem single_invalid_param_rejected_untouched :
    (∀ (c : AppConfig) (b : ℤ), allowedBaudRates.contains b = false →
      update_config c ⟨none, none, some b, none⟩ = ⟨c, false, 0⟩) ∧
    (∀ (c : AppConfig) (t : ℚ), t ≤ 0 ∨ 10 < t →
      update_config c ⟨none, none, none, some t⟩ = ⟨c, false, 0⟩) ∧
    (∀ (c : AppConfig) (p : Str),
      (("COM").toList.isPrefixOf (pyUpper (pyStrip p))
        || ("/dev/").toList.isPrefixOf (pyUpper (pyStrip p))) = false →
      update_config c ⟨none, some p, none, none⟩ = ⟨c, false, 0⟩) := by
  refine ⟨?_, ?_, ?_⟩
  · intro c b hb
    simp only [update_config, update_config_baud]
    rw [hb, if_pos rfl]
  · intro c t ht
    unfold update_config update_config_baud update_config_timeout
    simp [ht]
  · intro c p hp
    simp only [update_config]
    rw [hp, if_pos rfl]

/-- C8 witness: the amended theorem applied at baud 1200, timeout 20, and
a port (`ttyUSB0`) that matches neither recognized spelling (note the code
upper-cases before checking, so even `/dev/...` ports fail the
case-sensitive `/dev/` check). -/
theorem single_invalid_param_rejected_untouched_witness :
    update_config defaultConfig ⟨none, none, some 1200, none⟩
      = ⟨defaultConfig, false, 0⟩ ∧
    update_config defaultConfig ⟨none, none, none, some 20⟩
      = ⟨defaultConfig, false, 0⟩ ∧
    update_config defaultConfig ⟨none, some (("ttyUSB0").toList), none, none⟩
      = ⟨defaultConfig, false, 0⟩ :=
  ⟨single_invalid_param_rejected_untouched.1 defaultConfig 1200 (by decide),
   single_invalid_param_rejected_untouched.2.1 defaultConfig 20 (Or.inr (by decide)),
   single_invalid_param_rejected_untouched.2.2 defaultConfig (("ttyUSB0").toList) (by decide)⟩
